import Mathlib

/-!
Verification of the request-dispatch and payload-construction logic of
`src/app.py` (a Streamlit resume-analysis demo).  The definitions below are a
shallow embedding of the Python source: `analyze_resumes` (lines 84-157) is
modelled as a pure function over a trace of attempt outcomes, the payload
dictionaries built at lines 236-239, 268-271 and 335-338 as records, and the
prompt builder `get_analysis_prompt` (lines 60-82) as a string function.
-/

/-- JSON values, as produced by `response.json()` (Python `json` module):
`null` is Python `None`; an object is an association list with distinct keys. -/
inductive Json where
  | null : Json
  | bool (b : Bool) : Json
  | num (n : Int) : Json
  | str (s : String) : Json
  | arr (elems : List Json) : Json
  | obj (fields : List (String × Json)) : Json

/-- The Python exceptions that can be raised inside the `try` body of the
retry loop: `requests.exceptions.Timeout`, other
`requests.exceptions.RequestException`s (connection refused, DNS failure, ...),
the JSON-decode error raised by `response.json()` on an unparseable body,
the `AttributeError` raised by `result.get(...)` when `result` is not a dict,
and any other exception. -/
inductive PyExc where
  | timeout : PyExc
  | requestError : PyExc
  | jsonDecodeError : PyExc
  | attributeError : PyExc
  | otherError : PyExc

/-- Whether an exception is an instance of `requests.exceptions.Timeout`
(the class named by the first `except` clause, line 135). -/
def isTimeoutClass : PyExc → Bool
  | .timeout => true
  | _ => false

/-- Whether an exception is an instance of `requests.exceptions.RequestException`
(the class named by the second `except` clause, line 142).  `Timeout` is a
subclass of `RequestException`; so is the `requests.exceptions.JSONDecodeError`
raised by `response.json()` in requests >= 2.27 (in older versions it is a bare
`ValueError`, which the third clause catches instead -- the handler body is the
same either way). -/
def isRequestExceptionClass : PyExc → Bool
  | .timeout => true
  | .requestError => true
  | .jsonDecodeError => true
  | _ => false

/-- Whether an exception is an instance of `Exception` (the class named by the
third `except` clause, line 149).  Every exception modelled here derives from
`Exception`. -/
def isExceptionClass : PyExc → Bool := fun _ => true

/-- Index of the first `except` clause of the loop body whose class matches the
raised exception (Python tries the clauses in source order), `none` if no
clause matches and the exception would propagate. -/
def firstMatchingHandler (e : PyExc) : Option Nat :=
  if isTimeoutClass e then some 0
  else if isRequestExceptionClass e then some 1
  else if isExceptionClass e then some 2
  else none

/-- Whether some `except` clause of the loop body catches the exception. -/
def handlerCatches (e : PyExc) : Bool := (firstMatchingHandler e).isSome

/-- First binding of a key in a JSON object's field list (keys of a parsed
JSON object are distinct, so first and last binding coincide). -/
def lookupField : List (String × Json) → String → Option Json
  | [], _ => none
  | (k, v) :: rest, key => if k = key then some v else lookupField rest key

/-- Python `value.get(key, dflt)`: on a dict it returns the bound value or the
default; on any non-dict value (list, str, int, bool, None) the attribute
access `.get` raises `AttributeError`. -/
def pyDictGet (j : Json) (key : String) (dflt : Json) : Sum PyExc Json :=
  match j with
  | .obj fields => Sum.inr ((lookupField fields key).getD dflt)
  | _ => Sum.inl PyExc.attributeError

/-- What the network does on one call of `session.post` (line 106): either a
completed HTTP response -- with its status code, its body parsed as JSON
(`none` when the body is not valid JSON) and its raw text -- or a raised
`Timeout`, another `RequestException`, or some unexpected exception. -/
inductive AttemptOutcome where
  | response (status : Nat) (body : Option Json) (text : String) : AttemptOutcome
  | timeoutExc : AttemptOutcome
  | requestExc : AttemptOutcome
  | unexpectedExc : AttemptOutcome

/-- Normal (non-raising) result of one iteration's `try` body before the
retry bookkeeping: either the loop returns `result.get("analysis")`
(line 126), or it fell to the `else` branch with the extracted error message
(line 128) and will retry. -/
inductive IterOutcome where
  | success (analysis : Json) : IterOutcome
  | httpError (errorMsg : Json) : IterOutcome

/-- One execution of the `try` body (lines 98-133) given the network's
outcome, up to the point where control either returns, falls through to the
retry bookkeeping, or raises.  Traced from the source:
line 106 `session.post` may raise; line 118 `st.json(response.json())` runs
only for status 200 and raises a JSON-decode error on an unparseable body;
line 126 `result.get("analysis")` raises `AttributeError` when the parsed
body is not a dict; line 128 `response.json().get('error', ...)` raises a
JSON-decode error on an unparseable body and `AttributeError` on a non-dict
body. -/
def runAttempt : AttemptOutcome → Sum PyExc IterOutcome
  | .timeoutExc => Sum.inl PyExc.timeout
  | .requestExc => Sum.inl PyExc.requestError
  | .unexpectedExc => Sum.inl PyExc.otherError
  | .response status body _text =>
    if status = 200 then
      match body with
      | none => Sum.inl PyExc.jsonDecodeError
      | some j =>
        match pyDictGet j "analysis" Json.null with
        | Sum.inl e => Sum.inl e
        | Sum.inr v => Sum.inr (IterOutcome.success v)
    else
      match body with
      | none => Sum.inl PyExc.jsonDecodeError
      | some j =>
        match pyDictGet j "error" (Json.str "Unknown error occurred") with
        | Sum.inl e => Sum.inl e
        | Sum.inr msg => Sum.inr (IterOutcome.httpError msg)

/-- Value a call of `analyze_resumes` yields: a normal Python return value
(`Json.null` models returning `None`), or an exception escaping to the
caller. -/
inductive DispatchReturn where
  | value (v : Json) : DispatchReturn
  | raised (e : PyExc) : DispatchReturn

/-- Observable behaviour of one `analyze_resumes` call: its return value, how
many `session.post` calls it issued, and the sequence of `time.sleep`
durations it executed, in order. -/
structure DispatchResult where
  ret : DispatchReturn
  calls : Nat
  delays : List Nat

/-- Line 93: `max_retries = 3`. -/
def maxRetries : Nat := 3

/-- Line 94: `retry_delay = 5` seconds. -/
def retryDelay : Nat := 5

/-- The retry loop (lines 97-154) from a given value of `current_try`,
accumulating the count of network calls and the sleeps executed so far.
`trace i` is the network's outcome for the i-th `session.post` call of this
dispatch.  The structural `fuel` argument equals `maxRetries - currentTry` at
every call (it starts at `maxRetries` with `currentTry = 0` and both move in
lockstep), so the `fuel = 0` case coincides with the loop guard
`current_try < max_retries` being false: fall through to lines 156-157,
report failure and `return None`.  Every non-success path executes
`time.sleep(retry_delay)` exactly when `current_try < max_retries - 1`
(lines 130-132, 137-139, 144-146, 151-153) and then increments `current_try`
exactly once (lines 133, 140, 147, 154). -/
def analyzeFrom (trace : Nat → AttemptOutcome) : Nat → Nat → Nat → List Nat → DispatchResult
  | 0, _currentTry, calls, delays => ⟨DispatchReturn.value Json.null, calls, delays⟩
  | fuel + 1, currentTry, calls, delays =>
    if currentTry < maxRetries then
      match runAttempt (trace calls) with
      | Sum.inr (IterOutcome.success v) => ⟨DispatchReturn.value v, calls + 1, delays⟩
      | Sum.inr (IterOutcome.httpError _msg) =>
        analyzeFrom trace fuel (currentTry + 1) (calls + 1)
          (if currentTry < maxRetries - 1 then delays ++ [retryDelay] else delays)
      | Sum.inl e =>
        if handlerCatches e then
          analyzeFrom trace fuel (currentTry + 1) (calls + 1)
            (if currentTry < maxRetries - 1 then delays ++ [retryDelay] else delays)
        else ⟨DispatchReturn.raised e, calls + 1, delays⟩
    else ⟨DispatchReturn.value Json.null, calls, delays⟩

/-- The dispatcher `analyze_resumes(payload, endpoint, approach_name)`
(lines 84-157), abstracted over the network's behaviour: `current_try` starts
at 0 (line 95) with no calls issued and no sleeps executed. -/
def analyze_resumes (trace : Nat → AttemptOutcome) : DispatchResult :=
  analyzeFrom trace maxRetries 0 0 []

/-- A `requests.Session` object as the dispatcher uses it.  The only state the
source touches is the plain Python attribute named `timeout` assigned at
line 102; `requests` itself has no session-level timeout setting and never
reads this attribute. -/
structure HttpSession where
  timeoutAttr : Option (Nat × Nat)

/-- Line 101: `requests.Session()` -- a fresh session, no `timeout` attribute. -/
def newSession : HttpSession := ⟨none⟩

/-- Line 102: `session.timeout = (60, 300)` -- sets a plain attribute on the
session object. -/
def configuredSession : HttpSession := { newSession with timeoutAttr := some (60, 300) }

/-- Arguments of one `session.post` call as `requests` receives them.
`requests` applies a connect/read timeout to a request exactly when the
`timeout` keyword argument is passed to the request method; otherwise the
request has no timeout. -/
structure PostCall where
  url : String
  body : Json
  timeoutArg : Option (Nat × Nat)

/-- Line 106: `response = session.post(endpoint, json=payload)` -- the call
passes the URL and the JSON body and no `timeout` keyword argument. -/
def sessionPost (endpoint : String) (payload : Json) : PostCall :=
  ⟨endpoint, payload, none⟩

/-- The connect/read timeout `requests` actually applies to a request: the
`timeout` keyword argument of the call, or none when the argument is absent. -/
def effectiveTimeout (c : PostCall) : Option (Nat × Nat) := c.timeoutArg

/-- One entry of the `images` list of an image-based payload (lines 227-230,
262-265): a mime type and base64-encoded data. -/
structure ImageRecord where
  mime_type : String
  data : String

/-- A payload dictionary as the application builds it: at most one of the
keys `images` and `ocr_list` is present (`none` models an absent key), plus a
`prompt` string. -/
structure AnalysisPayload where
  images : Option (List ImageRecord)
  ocr_list : Option (List Json)
  prompt : String

/-- The base evaluation rubric, `base_prompt` of `get_analysis_prompt`
(lines 62-78): the exact contents of the triple-quoted Python string,
indentation and surrounding newlines included. -/
def basePrompt : String :=
  "\n    For each provided resume image, evaluate the candidate based on the following criteria:\n\n"
  ++ "    1. **Tenure at Previous Companies**: Assess the duration of employment at each company, highlighting instances of long-term commitments (e.g., 5-10 years) and noting any patterns of short-term engagements.\n\n"
  ++ "    2. **Job Description Alignment**: Determine how closely the candidate's experience, skills, and qualifications match the specified job description. Identify areas of strong alignment and any gaps.\n\n"
  ++ "    3. **Skill Relevance and Proficiency**: Analyze the listed skills, their relevance to the job role, and the proficiency level indicated by the candidate's experience.\n\n"
  ++ "    4. **Career Progression**: Examine the trajectory of the candidate's career, noting evidence of growth such as promotions, increased responsibilities, or diversification of skills.\n\n"
  ++ "    5. **Educational Background**: Review the candidate's educational qualifications, considering the relevance of degrees, certifications, and continuous learning efforts to the job role.\n\n"
  ++ "    6. **Stability and Commitment**: Beyond tenure, assess overall stability by evaluating the frequency of job changes and any patterns that may indicate a lack of commitment.\n\n"
  ++ "    7. **Cultural Fit Indicators**: Identify any information suggesting the candidate's alignment with the company's values and culture, such as participation in relevant projects, initiatives, or organizations.\n    "

/-- Lines 60-82: `get_analysis_prompt(user_requirements)`.  The Python guard
`if user_requirements:` tests string truthiness, i.e. non-emptiness. -/
def get_analysis_prompt (user_requirements : String) : String :=
  if user_requirements ≠ "" then
    basePrompt ++ "\n\nAdditional Requirements:\n" ++ user_requirements
  else basePrompt

/-- The payload built for the image flows (lines 236-239 for the sample
images, lines 268-271 for uploaded files -- both build the same dictionary
shape `{"images": ..., "prompt": get_analysis_prompt(user_requirements)}`). -/
def imagesPayload (base64_images : List ImageRecord) (user_requirements : String) : AnalysisPayload :=
  ⟨some base64_images, none, get_analysis_prompt user_requirements⟩

/-- The payload built for the OCR flow (lines 335-338):
`{"ocr_list": ..., "prompt": get_analysis_prompt(user_requirements)}`. -/
def ocrPayload (ocr_list : List Json) (user_requirements : String) : AnalysisPayload :=
  ⟨none, some ocr_list, get_analysis_prompt user_requirements⟩

/-- Whether a payload carries exactly one of `images` and `ocr_list`. -/
def hasExactlyOneSource (p : AnalysisPayload) : Bool :=
  (p.images.isSome && !p.ocr_list.isSome) || (!p.images.isSome && p.ocr_list.isSome)

/-- An attempt outcome on which the `try` body reaches the `return` of
line 126. -/
def attemptSucceeds (o : AttemptOutcome) : Prop :=
  ∃ v, runAttempt o = Sum.inr (IterOutcome.success v)

/-- Whether a dispatch return is a normal Python return value rather than an
escaping exception. -/
def isValueReturn : DispatchReturn → Bool
  | .value _ => true
  | .raised _ => false

theorem handlerCatches_eq_true (e : PyExc) : handlerCatches e = true := by
  cases e <;> rfl

theorem step_success (trace : Nat → AttemptOutcome) (fuel currentTry calls : Nat)
    (delays : List Nat) (v : Json) (hct : currentTry < maxRetries)
    (h : runAttempt (trace calls) = Sum.inr (IterOutcome.success v)) :
    analyzeFrom trace (fuel + 1) currentTry calls delays =
      ⟨DispatchReturn.value v, calls + 1, delays⟩ := by
  simp [analyzeFrom, if_pos hct, h]

theorem step_nonsuccess_sleep (trace : Nat → AttemptOutcome) (fuel currentTry calls : Nat)
    (delays : List Nat) (hct : currentTry < maxRetries - 1)
    (h : ¬ attemptSucceeds (trace calls)) :
    analyzeFrom trace (fuel + 1) currentTry calls delays =
      analyzeFrom trace fuel (currentTry + 1) (calls + 1) (delays ++ [retryDelay]) := by
  have hct3 : currentTry < maxRetries := by
    have h2 : maxRetries - 1 ≤ maxRetries := Nat.sub_le _ _
    omega
  simp only [analyzeFrom, if_pos hct3]
  cases hr : runAttempt (trace calls) with
  | inl e => simp [handlerCatches_eq_true e, if_pos hct]
  | inr io =>
    cases io with
    | success v => exact absurd ⟨v, hr⟩ h
    | httpError m => simp [if_pos hct]

theorem step_nonsuccess_last (trace : Nat → AttemptOutcome) (fuel currentTry calls : Nat)
    (delays : List Nat) (hct : currentTry < maxRetries)
    (hlast : ¬ currentTry < maxRetries - 1)
    (h : ¬ attemptSucceeds (trace calls)) :
    analyzeFrom trace (fuel + 1) currentTry calls delays =
      analyzeFrom trace fuel (currentTry + 1) (calls + 1) delays := by
  simp only [analyzeFrom, if_pos hct]
  cases hr : runAttempt (trace calls) with
  | inl e => simp [handlerCatches_eq_true e, if_neg hlast]
  | inr io =>
    cases io with
    | success v => exact absurd ⟨v, hr⟩ h
    | httpError m => simp [if_neg hlast]

theorem exhaustRun (trace : Nat → AttemptOutcome)
    (h : ∀ i, i < maxRetries → ¬ attemptSucceeds (trace i)) :
    analyze_resumes trace = ⟨DispatchReturn.value Json.null, 3, [retryDelay, retryDelay]⟩ := by
  calc analyze_resumes trace
      = analyzeFrom trace 3 0 0 [] := rfl
    _ = analyzeFrom trace 2 1 1 ([] ++ [retryDelay]) :=
        step_nonsuccess_sleep trace 2 0 0 [] (by decide) (h 0 (by decide))
    _ = analyzeFrom trace 1 2 2 ([] ++ [retryDelay] ++ [retryDelay]) :=
        step_nonsuccess_sleep trace 1 1 1 _ (by decide) (h 1 (by decide))
    _ = analyzeFrom trace 0 3 3 ([] ++ [retryDelay] ++ [retryDelay]) :=
        step_nonsuccess_last trace 0 2 2 _ (by decide) (by decide) (h 2 (by decide))
    _ = ⟨DispatchReturn.value Json.null, 3, [retryDelay, retryDelay]⟩ := rfl

theorem non200_not_success (s : Nat) (b : Option Json) (t : String) (hs : s ≠ 200) :
    ¬ attemptSucceeds (AttemptOutcome.response s b t) := by
  rintro ⟨v, hv⟩
  simp only [runAttempt, if_neg hs] at hv
  cases b with
  | none => exact Sum.noConfusion hv
  | some j => cases j <;> simp [pyDictGet] at hv

theorem timeout_not_success : ¬ attemptSucceeds AttemptOutcome.timeoutExc := by
  rintro ⟨v, hv⟩
  exact Sum.noConfusion hv

theorem analyzeFrom_calls_le (trace : Nat → AttemptOutcome) :
    ∀ (fuel currentTry calls : Nat) (delays : List Nat),
      (analyzeFrom trace fuel currentTry calls delays).calls ≤ calls + fuel := by
  intro fuel
  induction fuel with
  | zero => intro ct calls delays; exact Nat.le_refl _
  | succ n ih =>
    intro ct calls delays
    simp only [analyzeFrom]
    by_cases hct : ct < maxRetries
    · rw [if_pos hct]
      cases hr : runAttempt (trace calls) with
      | inl e =>
        simp only [handlerCatches_eq_true e, if_true]
        exact (ih _ (calls + 1) _).trans (by omega)
      | inr io =>
        cases io with
        | success v => simp
        | httpError m => exact (ih _ (calls + 1) _).trans (by omega)
    · rw [if_neg hct]; simp

theorem analyzeFrom_no_raise (trace : Nat → AttemptOutcome) :
    ∀ (fuel currentTry calls : Nat) (delays : List Nat),
      isValueReturn (analyzeFrom trace fuel currentTry calls delays).ret = true := by
  intro fuel
  induction fuel with
  | zero => intro ct calls delays; rfl
  | succ n ih =>
    intro ct calls delays
    simp only [analyzeFrom]
    by_cases hct : ct < maxRetries
    · rw [if_pos hct]
      cases hr : runAttempt (trace calls) with
      | inl e =>
        simp only [handlerCatches_eq_true e, if_true]
        exact ih _ _ _
      | inr io =>
        cases io with
        | success v => rfl
        | httpError m => exact ih _ _ _
    · rw [if_neg hct]; rfl

/-- C1: for every trace of attempt outcomes, one dispatcher call issues at
most `max_retries` = 3 network calls: `current_try` starts at 0, every
non-success iteration increments it exactly once, and the loop guard
`current_try < max_retries` bounds the iterations. -/
theorem dispatch_at_most_three_calls (trace : Nat → AttemptOutcome) :
    (analyze_resumes trace).calls ≤ maxRetries := by
  simpa using analyzeFrom_calls_le trace maxRetries 0 0 []

/-- C6: the dispatcher never lets an exception escape to its caller: every
exception the `try` body can raise is matched by one of the three `except`
clauses, so on every trace the call returns a normal Python value. -/
theorem dispatch_never_raises (trace : Nat → AttemptOutcome) :
    ∃ v, (analyze_resumes trace).ret = DispatchReturn.value v := by
  have h := analyzeFrom_no_raise trace maxRetries 0 0 []
  cases hr : (analyze_resumes trace).ret with
  | value v => exact ⟨v, rfl⟩
  | raised e =>
    rw [show analyze_resumes trace = analyzeFrom trace maxRetries 0 0 [] from rfl] at hr
    rw [hr] at h
    exact absurd h (by simp [isValueReturn])

/-- C3: if all three attempts complete with a non-200 status, the dispatcher
returns `None` after exactly 3 network calls and exactly 2 inter-attempt
sleeps of `retry_delay` = 5 seconds, with no sleep after the final attempt. -/
theorem all_non200_three_calls_two_delays (trace : Nat → AttemptOutcome)
    (h : ∀ i, i < maxRetries → ∃ s b t, s ≠ 200 ∧ trace i = AttemptOutcome.response s b t) :
    analyze_resumes trace = ⟨DispatchReturn.value Json.null, 3, [retryDelay, retryDelay]⟩ ∧
      retryDelay = 5 := by
  refine ⟨exhaustRun trace ?_, rfl⟩
  intro i hi
  obtain ⟨s, b, t, hs, heq⟩ := h i hi
  rw [heq]
  exact non200_not_success s b t hs

theorem all_non200_three_calls_two_delays_witness :
    analyze_resumes
        (fun _ => AttemptOutcome.response 500
          (some (Json.obj [("error", Json.str "bad payload")])) "") =
      ⟨DispatchReturn.value Json.null, 3, [retryDelay, retryDelay]⟩ ∧ retryDelay = 5 :=
  all_non200_three_calls_two_delays _
    (fun _i _hi => ⟨500, some (Json.obj [("error", Json.str "bad payload")]), "",
      by decide, rfl⟩)

/-- C7: a timeout exception on every attempt behaves exactly like a non-200
response on every attempt: 3 calls, 2 sleeps of `retry_delay`, and a `None`
result -- the two dispatches are observationally equal. -/
theorem all_timeouts_same_as_all_http_errors (traceT traceH : Nat → AttemptOutcome)
    (hT : ∀ i, i < maxRetries → traceT i = AttemptOutcome.timeoutExc)
    (hH : ∀ i, i < maxRetries → ∃ s b t, s ≠ 200 ∧ traceH i = AttemptOutcome.response s b t) :
    analyze_resumes traceT = ⟨DispatchReturn.value Json.null, 3, [retryDelay, retryDelay]⟩ ∧
      analyze_resumes traceT = analyze_resumes traceH := by
  have hTrun : analyze_resumes traceT =
      ⟨DispatchReturn.value Json.null, 3, [retryDelay, retryDelay]⟩ := by
    refine exhaustRun traceT ?_
    intro i hi
    rw [hT i hi]
    exact timeout_not_success
  have hHrun : analyze_resumes traceH =
      ⟨DispatchReturn.value Json.null, 3, [retryDelay, retryDelay]⟩ := by
    refine exhaustRun traceH ?_
    intro i hi
    obtain ⟨s, b, t, hs, heq⟩ := hH i hi
    rw [heq]
    exact non200_not_success s b t hs
  exact ⟨hTrun, hTrun.trans hHrun.symm⟩

theorem all_timeouts_same_as_all_http_errors_witness :
    analyze_resumes (fun _ => AttemptOutcome.timeoutExc) =
        ⟨DispatchReturn.value Json.null, 3, [retryDelay, retryDelay]⟩ ∧
      analyze_resumes (fun _ => AttemptOutcome.timeoutExc) =
        analyze_resumes (fun _ => AttemptOutcome.response 500 (some (Json.obj [])) "") :=
  all_timeouts_same_as_all_http_errors _ _
    (fun _i _hi => rfl)
    (fun _i _hi => ⟨500, some (Json.obj []), "", by decide, rfl⟩)

/-- C2 counterexample: an attempt that completes with HTTP 200 and a
JSON-parseable body (the empty array) does NOT make the dispatcher return on
that attempt: `result.get("analysis")` raises `AttributeError` on the
non-dict body, the attempt is retried, and all 3 network calls are issued. -/
theorem success_claim_fails_on_nonobject_body :
    (analyze_resumes (fun _ => AttemptOutcome.response 200 (some (Json.arr [])) "[]")).calls = 3 ∧
      ¬ (analyze_resumes
          (fun _ => AttemptOutcome.response 200 (some (Json.arr [])) "[]")).calls = 1 :=
  ⟨rfl, by decide⟩

/-- C2 (amended): if some attempt completes with HTTP 200 and a body parsing
to a JSON object, and no earlier attempt succeeded, the dispatcher returns on
that attempt with no further network calls, and the returned value is the
object's `analysis` field, or `None` when the field is absent. -/
theorem success_returns_analysis_of_object_body (trace : Nat → AttemptOutcome)
    (k : Nat) (fields : List (String × Json)) (t : String)
    (hk : k < maxRetries)
    (hns : ∀ i, i < k → ¬ attemptSucceeds (trace i))
    (hresp : trace k = AttemptOutcome.response 200 (some (Json.obj fields)) t) :
    analyze_resumes trace =
      ⟨DispatchReturn.value ((lookupField fields "analysis").getD Json.null),
        k + 1, List.replicate k retryDelay⟩ := by
  have hsucc : runAttempt (trace k) =
      Sum.inr (IterOutcome.success ((lookupField fields "analysis").getD Json.null)) := by
    rw [hresp]
    simp [runAttempt, pyDictGet]
  have hk3 : k < 3 := hk
  interval_cases k
  · exact step_success trace 2 0 0 [] _ (by decide) hsucc
  · calc analyze_resumes trace
        = analyzeFrom trace 3 0 0 [] := rfl
      _ = analyzeFrom trace 2 1 1 ([] ++ [retryDelay]) :=
          step_nonsuccess_sleep trace 2 0 0 [] (by decide) (hns 0 (by decide))
      _ = ⟨DispatchReturn.value ((lookupField fields "analysis").getD Json.null),
            1 + 1, List.replicate 1 retryDelay⟩ :=
          step_success trace 1 1 1 _ _ (by decide) hsucc
  · calc analyze_resumes trace
        = analyzeFrom trace 3 0 0 [] := rfl
      _ = analyzeFrom trace 2 1 1 ([] ++ [retryDelay]) :=
          step_nonsuccess_sleep trace 2 0 0 [] (by decide) (hns 0 (by decide))
      _ = analyzeFrom trace 1 2 2 ([] ++ [retryDelay] ++ [retryDelay]) :=
          step_nonsuccess_sleep trace 1 1 1 _ (by decide) (hns 1 (by decide))
      _ = ⟨DispatchReturn.value ((lookupField fields "analysis").getD Json.null),
            2 + 1, List.replicate 2 retryDelay⟩ :=
          step_success trace 0 2 2 _ _ (by decide) hsucc

theorem success_returns_analysis_of_object_body_witness :
    analyze_resumes
        (fun _ => AttemptOutcome.response 200
          (some (Json.obj [("analysis", Json.str "ok")])) "") =
      ⟨DispatchReturn.value (Json.str "ok"), 1, []⟩ :=
  success_returns_analysis_of_object_body _ 0 [("analysis", Json.str "ok")] ""
    (by decide) (fun i hi => absurd hi (Nat.not_lt_zero i)) rfl

/-- C5 counterexample: two concrete non-200 attempts refute the claimed
error-message extraction.  On a body that is not valid JSON, the extraction
does not fall back to the raw response text: `response.json()` at line 128
raises a JSON-decode error, so the attempt yields no `http_error` message at
all.  On a body that is valid JSON but not an object (the empty array),
`.get('error', ...)` raises `AttributeError`, so no generic message is
produced either. -/
theorem non200_error_extraction_claim_fails :
    (runAttempt (AttemptOutcome.response 500 none "Internal Server Error") =
        Sum.inl PyExc.jsonDecodeError ∧
      ¬ runAttempt (AttemptOutcome.response 500 none "Internal Server Error") =
          Sum.inr (IterOutcome.httpError (Json.str "Internal Server Error"))) ∧
    (runAttempt (AttemptOutcome.response 500 (some (Json.arr [])) "[]") =
        Sum.inl PyExc.attributeError ∧
      ¬ runAttempt (AttemptOutcome.response 500 (some (Json.arr [])) "[]") =
          Sum.inr (IterOutcome.httpError (Json.str "Unknown error occurred"))) :=
  ⟨⟨rfl, fun h => Sum.noConfusion h⟩, ⟨rfl, fun h => Sum.noConfusion h⟩⟩

/-- C5 (amended): for an attempt that completes with a non-200 status:
if the body is not valid JSON, the error-message extraction does not fall
back to raw text -- `response.json()` at line 128 raises a JSON-decode error,
which is caught by the loop's `except` clauses, the counter is incremented
once and the attempt retried under the same bound (the raw text only ever
appears in the diagnostic display of lines 110-120); if the body is valid
JSON and an object, the `error` field is used if present, else the generic
message `Unknown error occurred`; if the body is valid JSON but not an
object, `.get('error', ...)` raises `AttributeError`, which is likewise
caught so the attempt is retried under the same bound. -/
theorem non200_error_extraction_amended :
    (∀ (trace : Nat → AttemptOutcome) (s : Nat) (t : String), s ≠ 200 →
      trace 0 = AttemptOutcome.response s none t →
      runAttempt (trace 0) = Sum.inl PyExc.jsonDecodeError ∧
        handlerCatches PyExc.jsonDecodeError = true ∧
        analyze_resumes trace = analyzeFrom trace 2 1 1 [retryDelay]) ∧
    (∀ (s : Nat) (fields : List (String × Json)) (t : String), s ≠ 200 →
      runAttempt (AttemptOutcome.response s (some (Json.obj fields)) t) =
        Sum.inr (IterOutcome.httpError
          ((lookupField fields "error").getD (Json.str "Unknown error occurred")))) ∧
    (∀ (s : Nat) (elems : List Json) (t : String), s ≠ 200 →
      runAttempt (AttemptOutcome.response s (some (Json.arr elems)) t) =
          Sum.inl PyExc.attributeError ∧
        handlerCatches PyExc.attributeError = true) := by
  refine ⟨?_, ?_, ?_⟩
  · intro trace s t hs h0
    have hns : ¬ attemptSucceeds (trace 0) := by
      rw [h0]
      exact non200_not_success s none t hs
    refine ⟨?_, rfl, ?_⟩
    · rw [h0]
      simp [runAttempt, if_neg hs]
    · calc analyze_resumes trace
          = analyzeFrom trace 3 0 0 [] := rfl
        _ = analyzeFrom trace 2 1 1 ([] ++ [retryDelay]) :=
            step_nonsuccess_sleep trace 2 0 0 [] (by decide) hns
        _ = analyzeFrom trace 2 1 1 [retryDelay] := rfl
  · intro s fields t hs
    simp [runAttempt, if_neg hs, pyDictGet]
  · intro s elems t hs
    exact ⟨by simp [runAttempt, if_neg hs, pyDictGet], rfl⟩

theorem non200_error_extraction_amended_witness :
    (runAttempt ((fun _ => AttemptOutcome.response 500 none "oops") 0) =
        Sum.inl PyExc.jsonDecodeError ∧
      handlerCatches PyExc.jsonDecodeError = true ∧
      analyze_resumes (fun _ => AttemptOutcome.response 500 none "oops") =
        analyzeFrom (fun _ => AttemptOutcome.response 500 none "oops") 2 1 1 [retryDelay]) ∧
    runAttempt (AttemptOutcome.response 500
        (some (Json.obj [("error", Json.str "bad payload")])) "") =
      Sum.inr (IterOutcome.httpError (Json.str "bad payload")) ∧
    (runAttempt (AttemptOutcome.response 500 (some (Json.arr [])) "[]") =
        Sum.inl PyExc.attributeError ∧
      handlerCatches PyExc.attributeError = true) :=
  ⟨non200_error_extraction_amended.1 (fun _ => AttemptOutcome.response 500 none "oops")
      500 "oops" (by decide) rfl,
    non200_error_extraction_amended.2.1 500 [("error", Json.str "bad payload")] ""
      (by decide),
    non200_error_extraction_amended.2.2 500 [] "[]" (by decide)⟩

/-- C9: an attempt that completes with HTTP 200 but a body that is not valid
JSON is not returned as a success: `st.json(response.json())` at line 118
raises a JSON-decode error, the error is caught by the loop's `except`
clauses, `current_try` is incremented exactly once, and the loop retries
under the same bound. -/
theorem status200_invalid_json_retried (trace : Nat → AttemptOutcome)
    (t : String) (h0 : trace 0 = AttemptOutcome.response 200 none t) :
    runAttempt (trace 0) = Sum.inl PyExc.jsonDecodeError ∧
      handlerCatches PyExc.jsonDecodeError = true ∧
      analyze_resumes trace = analyzeFrom trace 2 1 1 [retryDelay] := by
  have hr : runAttempt (trace 0) = Sum.inl PyExc.jsonDecodeError := by
    rw [h0]
    rfl
  have hns : ¬ attemptSucceeds (trace 0) := by
    rintro ⟨v, hv⟩
    rw [hr] at hv
    exact Sum.noConfusion hv
  refine ⟨hr, rfl, ?_⟩
  calc analyze_resumes trace
      = analyzeFrom trace 3 0 0 [] := rfl
    _ = analyzeFrom trace 2 1 1 ([] ++ [retryDelay]) :=
        step_nonsuccess_sleep trace 2 0 0 [] (by decide) hns
    _ = analyzeFrom trace 2 1 1 [retryDelay] := rfl

theorem status200_invalid_json_retried_witness :
    runAttempt ((fun _ => AttemptOutcome.response 200 none "not json") 0) =
        Sum.inl PyExc.jsonDecodeError ∧
      handlerCatches PyExc.jsonDecodeError = true ∧
      analyze_resumes (fun _ => AttemptOutcome.response 200 none "not json") =
        analyzeFrom (fun _ => AttemptOutcome.response 200 none "not json") 2 1 1 [retryDelay] :=
  status200_invalid_json_retried (fun _ => AttemptOutcome.response 200 none "not json")
    "not json" rfl

/-- C4: the code assigns `session.timeout = (60, 300)` (a plain attribute
`requests` never reads) but passes no `timeout` keyword argument to
`session.post`, so no connect/read timeout is applied to any attempt's
request -- contradicting the comment at line 102 that the session is
configured with a (connect, read) timeout. -/
theorem post_timeout_not_applied :
    configuredSession.timeoutAttr = some (60, 300) ∧
      ∀ (endpoint : String) (payload : Json),
        effectiveTimeout (sessionPost endpoint payload) = none :=
  ⟨rfl, fun _ _ => rfl⟩

/-- C8: each of the three payload-construction sites populates exactly one of
the `images` and `ocr_list` keys (both image flows build `images` payloads,
the OCR flow builds an `ocr_list` payload), and every payload carries a
`prompt` built by `get_analysis_prompt`. -/
theorem payloads_have_exactly_one_source :
    ∀ (imgs : List ImageRecord) (ocr : List Json) (reqs : String),
      (hasExactlyOneSource (imagesPayload imgs reqs) = true ∧
        (imagesPayload imgs reqs).prompt = get_analysis_prompt reqs) ∧
      (hasExactlyOneSource (ocrPayload ocr reqs) = true ∧
        (ocrPayload ocr reqs).prompt = get_analysis_prompt reqs) :=
  fun _ _ _ => ⟨⟨rfl, rfl⟩, ⟨rfl, rfl⟩⟩

/-- C10: the prompt builder returns exactly the base rubric for the empty
requirements string (Python string truthiness treats it as absent), and the
base rubric followed by the separator and the user text for every non-empty
string. -/
theorem get_analysis_prompt_spec :
    get_analysis_prompt "" = basePrompt ∧
      ∀ (s : String), s ≠ "" →
        get_analysis_prompt s = basePrompt ++ "\n\nAdditional Requirements:\n" ++ s := by
  constructor
  · rfl
  · intro s hs
    simp [get_analysis_prompt, hs]

theorem get_analysis_prompt_spec_witness :
    get_analysis_prompt "python" = basePrompt ++ "\n\nAdditional Requirements:\n" ++ "python" :=
  get_analysis_prompt_spec.2 "python" (by decide)
